import Mathlib

/-!
Verification development for the ai-sandbox multi-agent orchestration core.

Shallow embedding of the Python modules
`core/message_bus/message_bus.py`, `core/workflow_engine/workflow_engine.py`,
`core/agent_orchestrator/agent_orchestrator.py` and `core/workflow_safety.py`,
together with proofs of the specified behavioural properties.

Conventions used throughout:
* Python dictionaries are embedded as association lists with Python's
  assignment semantics (overwrite in place, append when fresh).
* Python runtime values are embedded by the inductive type `Value`.  The
  constructor `Value.objRaisingBool` models an arbitrary Python object whose
  `__bool__` method raises; such objects can legally appear in a workflow
  context (payloads and step results are arbitrary objects).
* Wall-clock readings (`time.time()`, `datetime.now()`), freshly generated
  uuids and the SHA-256 content hash are passed in as explicit parameters,
  so all definitions are deterministic and executable.
* Fallible Python code (statements that can raise) is embedded in
  `Except String`, the error string standing for the exception message.
-/

namespace AiSandbox

/-- Embedded Python runtime values.  `objRaisingBool msg` models an object
whose truthiness test (`bool(x)` / `__bool__`) raises an exception with
message `msg`; all other constructors are the ordinary JSON-like values the
workflow core manipulates. -/
inductive Value : Type where
  | none : Value
  | bool : Bool → Value
  | int : Int → Value
  | float : Rat → Value
  | str : String → Value
  | list : List Value → Value
  | dict : List (String × Value) → Value
  | objRaisingBool : String → Value

instance : Inhabited Value := ⟨Value.none⟩

/-- A Python `Dict[str, Any]` (insertion ordered). -/
abbrev Ctx := List (String × Value)

/-- Python `d.get(k)`: first binding of `k`, if any. -/
def ctxGet (ctx : Ctx) (k : String) : Option Value :=
  (ctx.find? (fun p => p.1 == k)).map Prod.snd

/-- Python `d.get(k, default)`. -/
def ctxGetD (ctx : Ctx) (k : String) (d : Value) : Value :=
  (ctxGet ctx k).getD d

/-- Python `d[k] = v` on an insertion-ordered dict: overwrite the existing
binding in place, otherwise append at the end. -/
def dictInsert (d : List (String × Value)) (k : String) (v : Value) :
    List (String × Value) :=
  match d with
  | [] => [(k, v)]
  | (k1, v1) :: rest =>
    if k1 = k then (k, v) :: rest else (k1, v1) :: dictInsert rest k v

/-- Python truthiness `bool(x)`.  Raises (returns `.error`) exactly for an
object whose `__bool__` raises. -/
def pyTruthy : Value → Except String Bool
  | .none => .ok false
  | .bool b => .ok b
  | .int n => .ok (decide (n ≠ 0))
  | .float q => .ok (decide (q ≠ 0))
  | .str s => .ok (decide (s ≠ ""))
  | .list l => .ok (!l.isEmpty)
  | .dict d => .ok (!d.isEmpty)
  | .objRaisingBool msg => .error msg

/-- Numeric view used by Python `==`: `bool` is a subtype of `int`, and
`int`/`float` compare by value across types. -/
def numVal? : Value → Option Rat
  | .bool b => some (if b then 1 else 0)
  | .int n => some (n : Rat)
  | .float q => some q
  | _ => Option.none

mutual

/-- Python `==` on embedded values: numeric values compare by value across
`bool`/`int`/`float`; strings, lists and dicts compare structurally (dicts
ignoring order); the opaque object compares by its tag (default identity
`__eq__`, approximated); mixed shapes are unequal. -/
def pyEq : Value → Value → Bool
  | a, b =>
    match numVal? a, numVal? b with
    | some x, some y => decide (x = y)
    | _, _ =>
      match a, b with
      | .none, .none => true
      | .str s, .str t => s == t
      | .list xs, .list ys => pyEqList xs ys
      | .dict xs, .dict ys => xs.length == ys.length && pyEqDict xs ys
      | .objRaisingBool s, .objRaisingBool t => s == t
      | _, _ => false

/-- Elementwise Python `==` on lists. -/
def pyEqList : List Value → List Value → Bool
  | [], [] => true
  | x :: xs, y :: ys => pyEq x y && pyEqList xs ys
  | _, _ => false

/-- Each binding of the first dict occurs (by key lookup) in the second. -/
def pyEqDict : List (String × Value) → List (String × Value) → Bool
  | [], _ => true
  | (k, v) :: xs, ys => pyEqLookup k v ys && pyEqDict xs ys

/-- Look up `k` in `ys` and compare its value with `v` by Python `==`. -/
def pyEqLookup : String → Value → List (String × Value) → Bool
  | _, _, [] => false
  | k, v, (k1, v1) :: ys => if k == k1 then pyEq v v1 else pyEqLookup k v ys

end

mutual

/-- Structural (constructor-wise) boolean equality on embedded values, used
where the embedding needs to compare two values as objects rather than by
Python `==` (e.g. the tuple-comparison identity shortcut). -/
def beqValue : Value → Value → Bool
  | .none, .none => true
  | .bool a, .bool b => a == b
  | .int a, .int b => a == b
  | .float a, .float b => a == b
  | .str a, .str b => a == b
  | .list xs, .list ys => beqValueList xs ys
  | .dict xs, .dict ys => beqValueDict xs ys
  | .objRaisingBool a, .objRaisingBool b => a == b
  | _, _ => false

/-- Structural equality on lists of values. -/
def beqValueList : List Value → List Value → Bool
  | [], [] => true
  | x :: xs, y :: ys => beqValue x y && beqValueList xs ys
  | _, _ => false

/-- Structural equality on dicts, binding by binding. -/
def beqValueDict : List (String × Value) → List (String × Value) → Bool
  | [], [] => true
  | (k, v) :: xs, (k1, v1) :: ys => k == k1 && beqValue v v1 && beqValueDict xs ys
  | _, _ => false

end

/-! ## Message bus (`core/message_bus/message_bus.py`) -/

/-- `Message`: container for agent communication.  `timestamp` is the
creation-time clock reading (`time.time()` at construction), `ttl` the
time-to-live in seconds (constructor default 300). -/
structure Message where
  messageType : String
  sender : String
  receiver : Option String
  payload : Value
  correlationId : String
  priority : Int
  timestamp : Int
  ttl : Int

instance : Inhabited Message :=
  ⟨⟨"", "", Option.none, Value.none, "", 0, 0, 0⟩⟩

/-- Structural boolean equality on messages (field by field). -/
def beqMessage (a b : Message) : Bool :=
  a.messageType == b.messageType && a.sender == b.sender &&
  a.receiver == b.receiver && beqValue a.payload b.payload &&
  a.correlationId == b.correlationId && a.priority == b.priority &&
  a.timestamp == b.timestamp && a.ttl == b.ttl

/-- `Message.is_expired`: `time.time() - self.timestamp > self.ttl`, with the
current clock reading passed explicitly. -/
def Message.isExpired (now : Int) (m : Message) : Bool :=
  decide (now - m.timestamp > m.ttl)

/-- The `stats` dictionary of `MessageBus`. -/
structure BusStats where
  messagesSent : Nat
  messagesReceived : Nat
  messagesExpired : Nat
  subscribersCount : Nat
  deriving Repr, DecidableEq

/-- State of a `MessageBus`.  Subscriber callbacks are opaque: the state
records, per topic, the list of subscription ids, and message processing
reports the (subscription id, message) pairs whose callbacks the worker
invokes.  `responseFutures` holds the pending correlation ids. -/
structure BusState where
  subscribers : List (String × List String)
  queue : List (Int × Message)
  responseFutures : List String
  stats : BusStats

/-- `defaultdict(list)` read of the subscriber table. -/
def subscribersOf (st : BusState) (topic : String) : List String :=
  ((st.subscribers.find? (fun p => p.1 == topic)).map Prod.snd).getD []

/-- Comparison of two priority-queue entries `(-priority, message)` as Python
compares tuples: the first components decide unless equal, in which case the
`Message` objects themselves are compared — `Message` defines no ordering
methods, so Python raises `TypeError` (distinct objects; for the identical
object the tuples are equal and `<` is `False`). -/
def entryLt (a b : Int × Message) : Except String Bool :=
  if a.1 = b.1 then
    if beqMessage a.2 b.2 then .ok false
    else .error "TypeError: \x27<\x27 not supported between instances of \x27Message\x27 and \x27Message\x27"
  else .ok (decide (a.1 < b.1))

/-- CPython `heapq._siftdown(heap, 0, pos)`: bubble the freshly appended
entry up toward the root, comparing it with its parent at each step.  The
fuel argument (`pos` bounds the number of iterations) makes the recursion
structural. -/
def siftdownAux : Nat → List (Int × Message) → (Int × Message) → Nat →
    Except String (List (Int × Message))
  | 0, heap, newitem, pos => .ok (heap.set pos newitem)
  | fuel + 1, heap, newitem, pos =>
    if pos = 0 then .ok (heap.set pos newitem)
    else
      let parentpos := (pos - 1) / 2
      let parent := heap.getD parentpos default
      match entryLt newitem parent with
      | .error e => .error e
      | .ok true => siftdownAux fuel (heap.set pos parent) newitem parentpos
      | .ok false => .ok (heap.set pos newitem)

/-- `heapq.heappush`: append, then sift down from the last position. -/
def heappush (heap : List (Int × Message)) (item : Int × Message) :
    Except String (List (Int × Message)) :=
  siftdownAux heap.length (heap ++ [item]) item heap.length

/-- `MessageBus.publish`: drop an already-expired message (incrementing the
expired counter); otherwise push `(-priority, message)` onto the priority
queue — which can raise `TypeError` from the entry comparison — and then
increment the sent counter. -/
def MessageBus.publish (now : Int) (st : BusState) (m : Message) :
    Except String BusState :=
  if m.isExpired now then
    .ok { st with stats := { st.stats with messagesExpired := st.stats.messagesExpired + 1 } }
  else
    match heappush st.queue (-m.priority, m) with
    | .error e => .error e
    | .ok q =>
      .ok { st with queue := q,
                    stats := { st.stats with messagesSent := st.stats.messagesSent + 1 } }

/-- `MessageBus._handle_broadcast`: every subscriber of
`"broadcast.<message_type>"` receives the message. -/
def handleBroadcast (st : BusState) (m : Message) : List (String × Message) :=
  (subscribersOf st ("broadcast." ++ m.messageType)).map (fun sid => (sid, m))

/-- `MessageBus._handle_direct_message`: subscribers of `"agent.<receiver>"`
when a receiver is set, otherwise fall back to broadcast handling. -/
def handleDirect (st : BusState) (m : Message) : List (String × Message) :=
  match m.receiver with
  | some r => (subscribersOf st ("agent." ++ r)).map (fun sid => (sid, m))
  | Option.none => handleBroadcast st m

/-- One iteration of `MessageBus._process_messages` on a dequeued entry:
drop it (incrementing the expired counter, invoking no callback) when the
message is expired at processing time; otherwise count it received and route
by message type.  Returns the new state and the list of
(subscription id, message) callback invocations. -/
def processOne (now : Int) (st : BusState) (entry : Int × Message) :
    BusState × List (String × Message) :=
  let m := entry.2
  if m.isExpired now then
    ({ st with stats := { st.stats with messagesExpired := st.stats.messagesExpired + 1 } }, [])
  else
    let st1 := { st with stats := { st.stats with messagesReceived := st.stats.messagesReceived + 1 } }
    if m.messageType = "broadcast" then
      (st1, handleBroadcast st1 m)
    else if m.messageType = "response" then
      ({ st1 with responseFutures := st1.responseFutures.filter (fun c => c ≠ m.correlationId) }, [])
    else
      (st1, handleDirect st1 m)

/-! ## Workflow engine (`core/workflow_engine/workflow_engine.py`) -/

/-- `StepType` enum. -/
inductive StepType : Type where
  | task | parallel | conditional | loop
  deriving Repr, DecidableEq

/-- `WorkflowStep` dataclass.  `loopConfig` is the raw `loop_config` dict. -/
inductive WStep : Type where
  | mk (name : String) (stepType : StepType) (agent : Option String)
       (action : Option String) (parameters : List (String × Value))
       (dependencies : List String) (condition : Option String)
       (parallelSteps : List WStep) (loopConfig : Option (List (String × Value))) : WStep

/-- The `name` field of a workflow step. -/
def WStep.name : WStep → String
  | .mk n _ _ _ _ _ _ _ _ => n

/-! String primitives.  Lean's own `String.startsWith`, `drop`, `trim`,
`splitOn`, `toInt?` … recurse on utf8 byte positions and do not reduce
inside the kernel, so the embedding uses these structurally recursive
char-list versions of the Python string operations instead. -/

/-- `listStarts l p`: `p` is a prefix of `l` (char by char). -/
def listStarts : List Char → List Char → Bool
  | _, [] => true
  | [], _ :: _ => false
  | c :: cs, d :: ds => c == d && listStarts cs ds

/-- Python `s.startswith(p)`. -/
def strStarts (s p : String) : Bool := listStarts s.data p.data

/-- Python `s.endswith(p)`. -/
def strEnds (s p : String) : Bool := listStarts s.data.reverse p.data.reverse

/-- Python `s[n:]`. -/
def strDrop (s : String) (n : Nat) : String := ⟨s.data.drop n⟩

/-- Python `s[:-n]` (for `0 < n ≤ len(s)`). -/
def strDropRight (s : String) (n : Nat) : String :=
  ⟨s.data.take (s.data.length - n)⟩

/-- ASCII whitespace (the characters Python `strip()` removes in the
workflow templates). -/
def isSpaceChar (c : Char) : Bool :=
  c == ' ' || c == '\t' || c == '\n' || c == '\r'

/-- Python `s.strip()`. -/
def strTrim (s : String) : String :=
  ⟨((s.data.dropWhile isSpaceChar).reverse.dropWhile isSpaceChar).reverse⟩

/-- Lower-case an ASCII letter (Python `str.lower`, restricted to the ASCII
range the condition grammar uses). -/
def charLower (c : Char) : Char :=
  if 'A' ≤ c && c ≤ 'Z' then Char.ofNat (c.toNat + 32) else c

/-- Python `s.lower()` on ASCII text. -/
def strLower (s : String) : String := ⟨s.data.map charLower⟩

/-- Split a char list at the *first* occurrence of the (non-empty)
separator: `some (before, after)`, or `Option.none` when the separator does
not occur.  This is Python `s.split(sep, 1)` together with the `sep in s`
test. -/
def listBreakOn (sep : List Char) : List Char → Option (List Char × List Char)
  | [] => Option.none
  | c :: cs =>
    if listStarts (c :: cs) sep then some ([], (c :: cs).drop sep.length)
    else
      match listBreakOn sep cs with
      | some (l, r) => some (c :: l, r)
      | Option.none => Option.none

/-- Python `s.split(sep, 1)` when `sep` occurs in `s` (the right part keeps
any later occurrences). -/
def splitOnce (s sep : String) : Option (String × String) :=
  (listBreakOn sep.data s.data).map (fun p => (⟨p.1⟩, ⟨p.2⟩))

/-- Split a char list on every occurrence of a separator char
(Python `s.split(c)`; the empty string yields `[""]`). -/
def listSplitChar (sep : Char) : List Char → List (List Char)
  | [] => [[]]
  | c :: cs =>
    let r := listSplitChar sep cs
    if c == sep then [] :: r
    else
      match r with
      | [] => [[c]]
      | h :: t => (c :: h) :: t

/-- Python `s.split(".")` returning strings. -/
def strSplitDot (s : String) : List String :=
  (listSplitChar '.' s.data).map (fun l => ⟨l⟩)

/-- The decimal digit of a char, if any. -/
def charDigit? (c : Char) : Option Nat :=
  if '0' ≤ c && c ≤ '9' then some (c.toNat - 48) else Option.none

/-- Accumulate decimal digits; fails on a non-digit. -/
def digitsToNatAux : List Char → Nat → Option Nat
  | [], acc => some acc
  | c :: cs, acc =>
    match charDigit? c with
    | some d => digitsToNatAux cs (acc * 10 + d)
    | Option.none => Option.none

/-- A non-empty all-digit char list as a natural number. -/
def listToNat? (l : List Char) : Option Nat :=
  if l.isEmpty then Option.none else digitsToNatAux l 0

/-- Python `int()` on a (stripped) literal: optional sign and decimal
digits. -/
def strToInt? (s : String) : Option Int :=
  match s.data with
  | '-' :: rest => (listToNat? rest).map (fun n => -(n : Int))
  | '+' :: rest => (listToNat? rest).map (fun n => (n : Int))
  | l => (listToNat? l).map (fun n => (n : Int))

/-- `WorkflowEngine._get_nested_value`: walk the dotted path, descending only
through dict values that contain the key, otherwise `None`. -/
def getNestedValue : Value → List String → Value
  | current, [] => current
  | .dict d, key :: rest =>
    match ctxGet d key with
    | some v => getNestedValue v rest
    | Option.none => Value.none
  | _, _ :: _ => Value.none

/-- `WorkflowEngine._resolve_parameters` on a single parameter value:
a `"\x7b\x7bname\x7d\x7d"` string is looked up directly in the context with the
*original template string itself* as the default; a `"$\x7ba.b.c\x7d"` string is a
dotted-path lookup (missing segments give `None`); everything else passes
through unchanged. -/
def resolveValue (ctx : Ctx) (v : Value) : Value :=
  match v with
  | .str s =>
    if strStarts s "\x7b\x7b" && strEnds s "\x7d\x7d" then
      ctxGetD ctx (strTrim (strDropRight (strDrop s 2) 2)) (Value.str s)
    else if strStarts s "$\x7b" && strEnds s "\x7d" then
      getNestedValue (Value.dict ctx) (strSplitDot (strTrim (strDropRight (strDrop s 2) 1)))
    else Value.str s
  | v1 => v1

/-- `WorkflowEngine._resolve_parameters`: resolve each parameter value,
building the result dict in iteration order. -/
def resolveParameters (parameters : List (String × Value)) (ctx : Ctx) :
    List (String × Value) :=
  parameters.foldl (fun acc p => dictInsert acc p.1 (resolveValue ctx p.2)) []

/-- Unsigned part of `parseFloat?`. -/
def parseFloatCore (t : List Char) : Option Rat :=
  match listSplitChar '.' t with
  | [a] => (listToNat? a).map (fun n => (n : Rat))
  | [a, b] =>
    if a.isEmpty && b.isEmpty then Option.none
    else
      match (if a.isEmpty then some 0 else listToNat? a),
            (if b.isEmpty then some 0 else listToNat? b) with
      | some i, some f => some ((i : Rat) + (f : Rat) / ((10 : Rat) ^ b.length))
      | _, _ => Option.none
  | _ => Option.none

/-- Python `float()` restricted to plain decimal literals (optional sign,
integral and/or fractional digits).  Scientific notation and `inf`/`nan` are
outside the embedding; no property in this development depends on them. -/
def parseFloat? (s : String) : Option Rat :=
  match s.data with
  | '-' :: rest => (parseFloatCore rest).map (fun q => -q)
  | '+' :: rest => parseFloatCore rest
  | l => parseFloatCore l

/-- `WorkflowEngine._resolve_condition_value`: template lookup, dotted-path
lookup, or literal coercion trying `int`, then `float`, then the boolean
words, then falling back to the bare string. -/
def resolveConditionValue (ctx : Ctx) (value : String) : Value :=
  if strStarts value "\x7b\x7b" && strEnds value "\x7d\x7d" then
    (ctxGet ctx (strTrim (strDropRight (strDrop value 2) 2))).getD Value.none
  else if strStarts value "$\x7b" && strEnds value "\x7d" then
    getNestedValue (Value.dict ctx) (strSplitDot (strTrim (strDropRight (strDrop value 2) 1)))
  else
    match strToInt? value with
    | some n => Value.int n
    | Option.none =>
      match parseFloat? value with
      | some q => Value.float q
      | Option.none =>
        if strLower value = "true" || strLower value = "false" then
          Value.bool (strLower value = "true")
        else Value.str value

/-- The body of the `try` block in `WorkflowEngine._evaluate_condition`:
a `"\x7b\x7bname\x7d\x7d"` condition is the truthiness of the context value; a
condition containing `==` or `!=` splits once, resolves both sides and
compares; anything else is a direct context-key truthiness check (default
`False`).  An `.error` result models a raised exception (e.g. a context
value whose `__bool__` raises). -/
def evaluateConditionBody (ctx : Ctx) (condition : String) : Except String Bool :=
  if strStarts condition "\x7b\x7b" && strEnds condition "\x7d\x7d" then
    pyTruthy ((ctxGet ctx (strTrim (strDropRight (strDrop condition 2) 2))).getD Value.none)
  else
    match splitOnce condition "==" with
    | some (l, r) =>
      .ok (pyEq (resolveConditionValue ctx (strTrim l)) (resolveConditionValue ctx (strTrim r)))
    | Option.none =>
      match splitOnce condition "!=" with
      | some (l, r) =>
        .ok (!(pyEq (resolveConditionValue ctx (strTrim l)) (resolveConditionValue ctx (strTrim r))))
      | Option.none => pyTruthy (ctxGetD ctx condition (Value.bool false))

/-- `WorkflowEngine._evaluate_condition`: the body above wrapped in
`try ... except Exception: return False` — every exception raised during
condition evaluation is swallowed and yields `False`. -/
def evaluateCondition (ctx : Ctx) (condition : String) : Bool :=
  match evaluateConditionBody ctx condition with
  | .ok b => b
  | .error _ => false

/-- The orchestrator's task-dispatch capability
(`orchestrator.execute_task(agent, task)`), injected into the engine. -/
abbrev Dispatcher := String → Value → Except String Value

/-- A recorded dispatcher invocation: target agent and task dict. -/
abbrev TaskCall := String × Value

/-- Embed an `Optional[str]` field as a value. -/
def optStr : Option String → Value
  | some s => Value.str s
  | Option.none => Value.none

/-- `WorkflowEngine._execute_task_step` (with the orchestrator configured, as
the injected dispatcher): resolve the parameters against the context and call
`execute_task(agent, \x7baction, parameters, context\x7d)`.  Alongside the result
the embedding returns the list of dispatcher invocations made. -/
def executeTaskStep (D : Dispatcher) (name : String) (agent : Option String)
    (action : Option String) (parameters : List (String × Value)) (ctx : Ctx) :
    Except String Value × List TaskCall :=
  match agent with
  | Option.none => (.error ("Step \x27" ++ name ++ "\x27 has no agent specified"), [])
  | some ag =>
    let task := Value.dict [("action", optStr action),
      ("parameters", Value.dict (resolveParameters parameters ctx)),
      ("context", Value.dict ctx)]
    (D ag task, [(ag, task)])

/-- The `\x7bskipped: true, reason: "condition_not_met"\x7d` result of a skipped
conditional step. -/
def skippedResult : Value :=
  Value.dict [("skipped", Value.bool true), ("reason", Value.str "condition_not_met")]

/-- `WorkflowEngine._execute_conditional_step`: missing condition is an
error; otherwise evaluate the condition (whose own exceptions are swallowed
to `False` inside `_evaluate_condition`), execute the task step when truthy
— wrapping any exception it raises in a
`"Failed to evaluate condition ..."` runtime error — and short-circuit to
the skipped result when falsy. -/
def executeConditionalStep (D : Dispatcher) (name : String) (agent : Option String)
    (action : Option String) (parameters : List (String × Value))
    (condition : Option String) (ctx : Ctx) : Except String Value × List TaskCall :=
  match condition with
  | Option.none => (.error ("Conditional step \x27" ++ name ++ "\x27 has no condition"), [])
  | some cond =>
    if evaluateCondition ctx cond then
      match executeTaskStep D name agent action parameters ctx with
      | (.ok v, calls) => (.ok v, calls)
      | (.error e, calls) =>
        (.error ("Failed to evaluate condition \x27" ++ cond ++ "\x27: " ++ e), calls)
    else (.ok skippedResult, [])

/-- Python `enumerate` over the resolved loop items: lists iterate over
elements, strings over one-character strings, dicts over their keys;
anything else raises `TypeError`. -/
def iterItems : Value → Except String (List Value)
  | .list l => .ok l
  | .str s => .ok (s.toList.map (fun c => Value.str (String.singleton c)))
  | .dict d => .ok (d.map (fun p => Value.str p.1))
  | _ => .error "TypeError: object is not iterable"

/-- The per-item body of `WorkflowEngine._execute_loop_step`: run the task
step with `loop_var` and `loop_index` added to a copy of the context,
capturing a failing iteration as `\x7berror, item, index\x7d` and continuing. -/
def loopIterate (D : Dispatcher) (name : String) (agent : Option String)
    (action : Option String) (parameters : List (String × Value))
    (loopVar : String) (ctx : Ctx) :
    List Value → Nat → List Value × List TaskCall
  | [], _ => ([], [])
  | item :: rest, i =>
    let loopCtx := dictInsert (dictInsert ctx loopVar item) "loop_index" (.int i)
    let r := executeTaskStep D name agent action parameters loopCtx
    let slot := match r.1 with
      | .ok v => v
      | .error e => Value.dict [("error", .str e), ("item", item), ("index", .int i)]
    let rest1 := loopIterate D name agent action parameters loopVar ctx rest (i + 1)
    (slot :: rest1.1, r.2 ++ rest1.2)

/-- `WorkflowEngine._execute_loop_step`: missing configuration is an error;
the loop variable defaults to `"item"`, the items come from the
configuration directly when they are a list and from a context lookup
(default `[]`) otherwise; each iteration runs the task step with the loop
bindings, failures captured per slot.  Context keys are strings, so a
non-string item reference resolves to the `[]` default. -/
def executeLoopStep (D : Dispatcher) (name : String) (agent : Option String)
    (action : Option String) (parameters : List (String × Value))
    (loopConfig : Option (List (String × Value))) (ctx : Ctx) :
    Except String Value × List TaskCall :=
  match loopConfig with
  | Option.none => (.error ("Loop step \x27" ++ name ++ "\x27 has no loop configuration"), [])
  | some cfg =>
    let loopVar := match ctxGet cfg "variable" with
      | some (.str s) => s
      | _ => "item"
    let itemsVal := ctxGetD cfg "items" (.list [])
    let itemsSrc := match itemsVal with
      | .list l => Value.list l
      | .str s => ctxGetD ctx s (.list [])
      | _ => Value.list []
    match iterItems itemsSrc with
    | .error e => (.error e, [])
    | .ok items =>
      let r := loopIterate D name agent action parameters loopVar ctx items 0
      (.ok (.list r.1), r.2)

/-- The value stored in a parallel branch's result slot: the branch result
on success, `\x7berror: message\x7d` when the branch raised. -/
def branchSlot : Except String Value → Value
  | .ok v => v
  | .error e => Value.dict [("error", Value.str e)]

/-- Collect parallel branch outcomes into the `results` dict, in submission
order, exactly as the `results[step_name] = ...` loop does. -/
def collectBranches (branches : List (String × (Except String Value × List TaskCall))) :
    List (String × Value) :=
  branches.foldl (fun acc p => dictInsert acc p.1 (branchSlot p.2.1)) []

mutual

/-- `WorkflowEngine._execute_step`: dispatch on the step type.  A parallel
step with no nested steps returns the empty list; otherwise every nested
step runs on a copy of the context and the outcomes are collected into a
dict — a failing branch is captured in its own slot and the parallel step
itself never raises. -/
def executeStep (D : Dispatcher) : WStep → Ctx → Except String Value × List TaskCall
  | .mk name ty agent action params _ cond nested loopCfg, ctx =>
    match ty with
    | .task => executeTaskStep D name agent action params ctx
    | .parallel =>
      if nested.isEmpty then (.ok (.list []), [])
      else
        let branches := runBranches D nested ctx
        (.ok (.dict (collectBranches branches)),
         branches.foldl (fun acc b => acc ++ b.2.2) [])
    | .conditional => executeConditionalStep D name agent action params cond ctx
    | .loop => executeLoopStep D name agent action params loopCfg ctx

/-- Run each nested parallel step (in submission order) on the shared
context, pairing it with its name. -/
def runBranches (D : Dispatcher) :
    List WStep → Ctx → List (String × (Except String Value × List TaskCall))
  | [], _ => []
  | s :: rest, ctx => (s.name, executeStep D s ctx) :: runBranches D rest ctx

end

/-- `WorkflowStatus` enum. -/
inductive WorkflowStatus : Type where
  | pending | running | completed | failed | cancelled
  deriving Repr, DecidableEq

/-- `WorkflowExecution` dataclass (run state of one workflow execution). -/
structure WorkflowExecution where
  workflowId : String
  status : WorkflowStatus
  startTime : Option Int
  endTime : Option Int
  currentStep : Option String
  results : List (String × Value)
  errors : List String
  context : Ctx

/-- The engine's registry of active (non-terminal) executions. -/
structure EngineState where
  activeWorkflows : List (String × WorkflowExecution)

/-- `WorkflowEngine.cancel_workflow`: look the id up among the active
workflows; only an execution whose status is `running` is cancelled — its
status becomes `cancelled` and its end time is set to the current clock
reading — and `True` is returned; any other case returns `False` and
changes nothing. -/
def cancelWorkflow (now : Int) (st : EngineState) (workflowId : String) :
    Bool × EngineState :=
  match st.activeWorkflows.find? (fun p => p.1 == workflowId) with
  | some p =>
    if p.2.status = .running then
      (true,
       ⟨st.activeWorkflows.map (fun q =>
         if q.1 == workflowId then
           (q.1, { q.2 with status := .cancelled, endTime := some now })
         else q)⟩)
    else (false, st)
  | Option.none => (false, st)

/-! ## Agent orchestrator (`core/agent_orchestrator/agent_orchestrator.py`) -/

/-- `AgentStatus` enum. -/
inductive AgentStatus : Type where
  | idle | busy | error | offline
  deriving Repr, DecidableEq

/-- `AgentInfo` dataclass (communicator and metadata are external
collaborators and not part of the verified state). -/
structure AgentInfo where
  name : String
  role : String
  capabilities : List String
  status : AgentStatus

/-- `CollaborationContext` (`core/agent_communication/agent_communication.py`):
the session object created by `start_collaboration`. -/
structure CollaborationContext where
  collaborationId : String
  initiator : String
  participants : List String
  collaborationType : String
  sharedContext : Ctx
  status : String
  results : List (String × Value)

/-- The orchestrator's aggregate counters. -/
structure OrchStats where
  totalTasks : Nat
  successfulTasks : Nat
  failedTasks : Nat
  activeCollaborations : Nat
  totalCollaborations : Nat
  deriving Repr, DecidableEq

/-- Orchestrator state: agent registry, collaboration sessions, counters. -/
structure OrchState where
  agents : List (String × AgentInfo)
  collaborations : List (String × CollaborationContext)
  stats : OrchStats

/-- Registry lookup (`self.agents.get(agent_name)` / `in` check). -/
def agentLookup (st : OrchState) (name : String) : Option AgentInfo :=
  (st.agents.find? (fun p => p.1 == name)).map Prod.snd

/-- In-place mutation `agent_info.status = s` of a registered agent. -/
def setAgentStatus (st : OrchState) (name : String) (s : AgentStatus) : OrchState :=
  { st with agents := st.agents.map (fun p =>
      if p.1 == name then (p.1, { p.2 with status := s }) else p) }

/-- The guarded prefix of `AgentOrchestrator.execute_task`: raise
`ValueError` for an unknown agent, `RuntimeError` for an agent whose status
is not idle, and otherwise mark the agent busy. -/
def executeTaskBegin (st : OrchState) (agentName : String) : Except String OrchState :=
  match agentLookup st agentName with
  | Option.none => .error ("Agent \x27" ++ agentName ++ "\x27 not registered")
  | some info =>
    if info.status ≠ .idle then
      .error ("Agent \x27" ++ agentName ++ "\x27 is not available")
    else .ok (setAgentStatus st agentName .busy)

/-- The tail of `AgentOrchestrator.execute_task` after the communicator call
(whose outcome is passed in): on success flip the agent back to idle and
bump the total and success counters, returning the result; on an exception
flip the agent to error, bump the total and failure counters, and re-raise.
(The episodic/working-memory writes go to external collaborators.) -/
def executeTaskFinish (st : OrchState) (agentName : String)
    (commResult : Except String Value) : Except String Value × OrchState :=
  match commResult with
  | .ok v =>
    (.ok v,
     { setAgentStatus st agentName .idle with stats :=
        { st.stats with totalTasks := st.stats.totalTasks + 1,
                        successfulTasks := st.stats.successfulTasks + 1 } })
  | .error e =>
    (.error e,
     { setAgentStatus st agentName .error with stats :=
        { st.stats with totalTasks := st.stats.totalTasks + 1,
                        failedTasks := st.stats.failedTasks + 1 } })

/-- `AgentOrchestrator.execute_task`, composed from its two phases. -/
def executeTask (st : OrchState) (agentName : String)
    (commResult : Except String Value) : Except String Value × OrchState :=
  match executeTaskBegin st agentName with
  | .error e => (.error e, st)
  | .ok st1 => executeTaskFinish st1 agentName commResult

/-- Association-list write with Python dict semantics, for non-`Value`
registries. -/
def assocSet {α : Type} (d : List (String × α)) (k : String) (v : α) :
    List (String × α) :=
  match d with
  | [] => [(k, v)]
  | (k1, v1) :: rest => if k1 = k then (k, v) :: rest else (k1, v1) :: assocSet rest k v

/-- `AgentOrchestrator.start_collaboration` (the fresh
`collab_<millis>` id is passed in): create the session with participant
list `[initiator] + participants` (verbatim concatenation), status
`"active"` and no results; register it; bump the active and total
collaboration counters; offer the collaboration to each *given* participant
that is registered (returned as the offer list, in order). -/
def startCollaboration (st : OrchState) (collaborationId : String)
    (initiator : String) (participants : List String)
    (collaborationType : String) (context : Ctx) :
    String × OrchState × List String :=
  let collaboration : CollaborationContext :=
    ⟨collaborationId, initiator, initiator :: participants,
     collaborationType, context, "active", []⟩
  let st1 : OrchState :=
    { st with
      collaborations := assocSet st.collaborations collaborationId collaboration,
      stats := { st.stats with
        activeCollaborations := st.stats.activeCollaborations + 1,
        totalCollaborations := st.stats.totalCollaborations + 1 } }
  (collaborationId, st1,
   participants.filter (fun p => (agentLookup st p).isSome))

/-! ## Idempotency guard (`core/workflow_safety.py`) -/

/-- `StepExecution` dataclass: one journal record. -/
structure StepExecution where
  stepId : String
  dedupeKey : String
  inputs : Ctx
  outputs : Ctx
  executedAt : Int
  status : String
  jobToken : String

/-- State of a `WorkflowSafety` instance together with the injected
durable-memory collaborator (`memory`), a namespaced key-value store. -/
structure SafetyState where
  workflowId : String
  journal : List StepExecution
  outbox : List (String × Value)
  seed : Int
  clockInjected : String
  mem : List ((String × String) × StepExecution)

/-- `memory.write(namespace, key, value, ...)` as far as the guard uses it. -/
def memWrite (mem : List ((String × String) × StepExecution)) (ns k : String)
    (v : StepExecution) : List ((String × String) × StepExecution) :=
  match mem with
  | [] => [((ns, k), v)]
  | (p, w) :: rest => if p = (ns, k) then ((ns, k), v) :: rest else (p, w) :: memWrite rest ns k v

/-- `memory.read(namespace, key, ...)`: the stored record, if present. -/
def memRead (mem : List ((String × String) × StepExecution)) (ns k : String) :
    Option StepExecution :=
  (mem.find? (fun p => p.1 == (ns, k))).map Prod.snd

/-- `WorkflowSafety._find_step`: scan the in-memory journal for the dedupe
key, then fall back to the durable-memory collaborator under the same key. -/
def WorkflowSafety.findStep (st : SafetyState) (key : String) : Option StepExecution :=
  match st.journal.find? (fun ex => ex.dedupeKey == key) with
  | some ex => some ex
  | Option.none => memRead st.mem ("workflow_" ++ st.workflowId ++ "_journal") key

/-- `WorkflowSafety._simulate_step`: a deterministic output built from the
frozen seed (via the injected pseudo-random generator) and the injected
clock string.  The step id and inputs feed only tracing and the quota
collaborator. -/
def simulateStep (rng : Int → Int) (st : SafetyState) (stepId : String)
    (inputs : Ctx) : Ctx :=
  [("result", Value.int (rng st.seed)), ("processed_at", Value.str st.clockInjected)]

/-- Result of one `execute_step` call: the `(is_replay, outputs)` return
value, the state after the call, and whether the step body
(`_simulate_step`) actually ran. -/
structure StepCallResult where
  isReplay : Bool
  outputs : Ctx
  state : SafetyState
  executed : Bool

/-- The undecorated body of `WorkflowSafety.execute_step` — the function the
`@contextmanager` decorator wraps, which `_GeneratorContextManager`
construction runs eagerly (see `WorkflowSafety.executeStep` below for the
decorated callable the source actually exposes).  With the content hash,
pseudo-random generator, clock reading and fresh job token passed in:
derive the dedupe key (content-address the inputs when no key, or a falsy
one, is supplied); a journal/memory hit replays the recorded outputs
without executing anything; otherwise register an outbox entry under the
job token, run the step body on the inputs augmented with the frozen seed
and clock, append the journal record, persist it to durable memory under
`step_<n>`, and clear the outbox entry. -/
def WorkflowSafety.executeStepBody (hash : Ctx → String) (rng : Int → Int)
    (now : Int) (jobToken : String) (st : SafetyState) (stepId : String)
    (inputs : Ctx) (dedupeKey : Option String) : StepCallResult :=
  let key := match dedupeKey with
    | some k => if k = "" then hash inputs else k
    | Option.none => hash inputs
  match WorkflowSafety.findStep st key with
  | some ex => ⟨true, ex.outputs, st, false⟩
  | Option.none =>
    let outboxEntry := Value.dict [("step_id", .str stepId), ("dedupe_key", .str key),
      ("inputs", .dict inputs), ("job_token", .str jobToken)]
    let st1 := { st with outbox := dictInsert st.outbox jobToken outboxEntry }
    let detInputs := dictInsert (dictInsert inputs "__seed" (.int st.seed))
      "__clock" (.str st.clockInjected)
    let outputs := simulateStep rng st stepId detInputs
    let exec : StepExecution := ⟨stepId, key, inputs, outputs, now, "success", jobToken⟩
    let st2 := { st1 with journal := st1.journal ++ [exec] }
    let st3 := { st2 with mem := (memWrite st2.mem
      ("workflow_" ++ st.workflowId ++ "_journal")
      ("step_" ++ toString st2.journal.length) exec) }
    let st4 := { st3 with outbox := st3.outbox.filter (fun p => p.1 ≠ jobToken) }
    ⟨false, outputs, st4, true⟩

/-- A `contextlib._GeneratorContextManager(func, args, kwds)` as produced by
the `@contextmanager` decorator on `execute_step`.  The wrapped body is a
plain function (it returns instead of yielding), so construction — which
evaluates `func(*args, **kwds)` — eagerly runs the whole body, and `gen`
holds the returned `(is_replay, outputs)` *pair*, not a generator. -/
structure GeneratorContextManager where
  gen : Bool × Ctx

/-- `_GeneratorContextManager.__enter__`: `return next(self.gen)` — but
`gen` holds a tuple, not an iterator, so entering always raises
`TypeError`. -/
def GeneratorContextManager.enter (g : GeneratorContextManager) :
    Except String (Bool × Ctx) :=
  .error "TypeError: \x27tuple\x27 object is not an iterator"

/-- `WorkflowSafety.execute_step` as the source actually exposes it: the
`@contextmanager`-decorated callable (workflow_safety.py line 51).  A call
eagerly runs the body — every journal, outbox and durable-memory effect
happens — but the caller receives the `_GeneratorContextManager` wrapping
the `(is_replay, outputs)` pair, never the pair itself. -/
def WorkflowSafety.executeStep (hash : Ctx → String) (rng : Int → Int)
    (now : Int) (jobToken : String) (st : SafetyState) (stepId : String)
    (inputs : Ctx) (dedupeKey : Option String) :
    GeneratorContextManager × SafetyState :=
  let r := WorkflowSafety.executeStepBody hash rng now jobToken st stepId inputs dedupeKey
  (⟨(r.isReplay, r.outputs)⟩, r.state)

/-! ## Concrete instances used by counterexamples and witnesses -/

/-- A fresh message bus (no subscribers, empty queue, zeroed statistics). -/
def busInit : BusState := ⟨[], [], [], ⟨0, 0, 0, 0⟩⟩

/-- A priority-1 notification from agent `a1`. -/
def msgC1a : Message :=
  ⟨"notification", "a1", Option.none, Value.str "p1", "corr_1", 1, 0, 300⟩

/-- A second, distinct priority-1 notification, published while the first is
still queued. -/
def msgC1b : Message :=
  ⟨"notification", "a2", Option.none, Value.str "p2", "corr_2", 1, 0, 300⟩

/-- The bus state after publishing `msgC1a` at time 0. -/
def busAfterC1a : BusState := ⟨[], [(-1, msgC1a)], [], ⟨1, 0, 0, 0⟩⟩

/-- A message whose ttl is 0, created at time 0. -/
def msgTtl0 : Message :=
  ⟨"notification", "a1", Option.none, Value.str "p", "corr_3", 1, 0, 0⟩

/-- The condition string `"\x7b\x7bx\x7d\x7d"`. -/
def condC6 : String := "\x7b\x7bx\x7d\x7d"

/-- A context binding `x` to an object whose `__bool__` raises `boom`. -/
def ctxC6 : Ctx := [("x", Value.objRaisingBool "boom")]

/-- A dispatcher that fails on agent `bad` and returns 7 otherwise. -/
def dispW : Dispatcher := fun ag _ => if ag == "bad" then .error "boom" else .ok (.int 7)

/-- Task step `s1` targeting agent `good`. -/
def stepW1 : WStep :=
  .mk "s1" .task (some "good") (some "act") [] [] Option.none [] Option.none

/-- Task step `s2` targeting agent `bad` (its dispatch always fails). -/
def stepW2 : WStep :=
  .mk "s2" .task (some "bad") (some "act") [] [] Option.none [] Option.none

/-- A parallel step over `s1` and `s2`. -/
def parW : WStep :=
  .mk "p" .parallel Option.none Option.none [] [] Option.none [stepW1, stepW2] Option.none

/-- An orchestrator with a single idle agent `writer` and zeroed counters. -/
def orchW0 : OrchState :=
  ⟨[("writer", ⟨"writer", "author", ["write"], .idle⟩)], [], ⟨0, 0, 0, 0, 0⟩⟩

/-- The same orchestrator with `writer` busy. -/
def orchBusy : OrchState :=
  ⟨[("writer", ⟨"writer", "author", ["write"], .busy⟩)], [], ⟨0, 0, 0, 0, 0⟩⟩

/-- A fresh `WorkflowSafety` state for workflow `w` (empty journal, outbox
and durable memory; seed 0, injected clock `t0`). -/
def safetyW0 : SafetyState := ⟨"w", [], [], 0, "t0", []⟩

/-- A concrete content-hash stand-in for the witness instantiation (the
idempotence theorem is proved for every hash function). -/
def hashW : Ctx → String := fun _ => "k"

/-- A concrete seeded pseudo-random generator for the witness. -/
def rngW : Int → Int := fun _ => 42

/-- A running workflow execution with id `wf1`. -/
def execRunning : WorkflowExecution :=
  ⟨"wf1", .running, some 5, Option.none, Option.none, [], [], []⟩

/-- A completed workflow execution with id `wf2`. -/
def execDone : WorkflowExecution :=
  ⟨"wf2", .completed, some 1, some 2, Option.none, [], [], []⟩

/-- An engine registry holding `wf1` (running) and `wf2` (completed). -/
def engineW0 : EngineState := ⟨[("wf1", execRunning), ("wf2", execDone)]⟩

/-! ## Helper lemmas -/

theorem aux_find?_cancel_map (l : List (String × WorkflowExecution)) (wid : String)
    (now : Int) (p : String × WorkflowExecution)
    (h : l.find? (fun q => q.1 == wid) = some p) :
    (l.map (fun q =>
        if q.1 == wid then
          (q.1, { q.2 with status := WorkflowStatus.cancelled, endTime := some now })
        else q)).find? (fun q => q.1 == wid) =
      some (p.1, { p.2 with status := WorkflowStatus.cancelled, endTime := some now }) := by
  induction l with
  | nil => simp at h
  | cons a rest ih =>
    by_cases ha : (a.1 == wid) = true
    · rw [show (a :: rest).find? (fun q => q.1 == wid) = some a from
        List.find?_cons_of_pos rest ha] at h
      cases h
      simp only [List.map_cons, ha, if_true]
      exact List.find?_cons_of_pos _ (by simpa using ha)
    · rw [show (a :: rest).find? (fun q => q.1 == wid) =
          rest.find? (fun q => q.1 == wid) from
        List.find?_cons_of_neg rest (by simpa using ha)] at h
      simp only [List.map_cons, if_neg ha]
      rw [show ((a ::
          rest.map (fun q =>
            if q.1 == wid then
              (q.1, { q.2 with status := WorkflowStatus.cancelled, endTime := some now })
            else q)).find? (fun q => q.1 == wid)) =
          (rest.map (fun q =>
            if q.1 == wid then
              (q.1, { q.2 with status := WorkflowStatus.cancelled, endTime := some now })
            else q)).find? (fun q => q.1 == wid) from
        List.find?_cons_of_neg _ (by simpa using ha)]
      exact ih h

theorem aux_find?_status_map (l : List (String × AgentInfo)) (n : String)
    (s : AgentStatus) (p : String × AgentInfo)
    (h : l.find? (fun q => q.1 == n) = some p) :
    (l.map (fun q => if q.1 == n then (q.1, { q.2 with status := s }) else q)).find?
        (fun q => q.1 == n) = some (p.1, { p.2 with status := s }) := by
  induction l with
  | nil => simp at h
  | cons a rest ih =>
    by_cases ha : (a.1 == n) = true
    · rw [show (a :: rest).find? (fun q => q.1 == n) = some a from
        List.find?_cons_of_pos rest ha] at h
      cases h
      simp only [List.map_cons, ha, if_true]
      exact List.find?_cons_of_pos _ (by simpa using ha)
    · rw [show (a :: rest).find? (fun q => q.1 == n) =
          rest.find? (fun q => q.1 == n) from
        List.find?_cons_of_neg rest (by simpa using ha)] at h
      simp only [List.map_cons, if_neg ha]
      rw [show ((a ::
          rest.map (fun q => if q.1 == n then (q.1, { q.2 with status := s }) else q)).find?
            (fun q => q.1 == n)) =
          (rest.map (fun q => if q.1 == n then (q.1, { q.2 with status := s }) else q)).find?
            (fun q => q.1 == n) from
        List.find?_cons_of_neg _ (by simpa using ha)]
      exact ih h

theorem aux_agentLookup_set (st : OrchState) (n : String) (s : AgentStatus)
    (info : AgentInfo) (h : agentLookup st n = some info) :
    agentLookup (setAgentStatus st n s) n = some { info with status := s } := by
  unfold agentLookup at h ⊢
  unfold setAgentStatus
  match hf : st.agents.find? (fun q => q.1 == n) with
  | Option.none => rw [hf] at h; simp at h
  | some p =>
    rw [hf] at h
    simp only [Option.map] at h
    cases h
    rw [aux_find?_status_map st.agents n s p hf]
    rfl

theorem aux_assocSet_find? {α : Type} (d : List (String × α)) (k : String) (v : α) :
    (assocSet d k v).find? (fun p => p.1 == k) = some (k, v) := by
  induction d with
  | nil =>
    show ([(k, v)].find? (fun p => p.1 == k)) = some (k, v)
    exact List.find?_cons_of_pos _ (by simp)
  | cons a rest ih =>
    obtain ⟨k1, v1⟩ := a
    by_cases ha : k1 = k
    · show ((if k1 = k then (k, v) :: rest else (k1, v1) :: assocSet rest k v).find?
        (fun p => p.1 == k)) = some (k, v)
      rw [if_pos ha]
      exact List.find?_cons_of_pos _ (by simp)
    · show ((if k1 = k then (k, v) :: rest else (k1, v1) :: assocSet rest k v).find?
        (fun p => p.1 == k)) = some (k, v)
      rw [if_neg ha]
      rw [show (((k1, v1) :: assocSet rest k v).find? (fun p => p.1 == k)) =
          (assocSet rest k v).find? (fun p => p.1 == k) from
        List.find?_cons_of_neg _ (by simpa using ha)]
      exact ih

/-! ## Claim theorems -/

/-- C1 (counter-evidence, evaluating the code at the failing input): the
queue entries `publish` creates are bare `(-priority, message)` pairs with no
sequence-number tiebreaker, so as soon as a second message of equal priority
is pushed the heap must compare the two `Message` objects themselves and
raises `TypeError`: the first publish succeeds, the second fails instead of
preserving publish order. -/
theorem publish_equal_priority_type_error :
    MessageBus.publish 0 busInit msgC1a = .ok busAfterC1a ∧
    MessageBus.publish 0 busAfterC1a msgC1b =
      .error "TypeError: \x27<\x27 not supported between instances of \x27Message\x27 and \x27Message\x27" ∧
    entryLt (-1, msgC1b) (-1, msgC1a) =
      .error "TypeError: \x27<\x27 not supported between instances of \x27Message\x27 and \x27Message\x27" :=
  ⟨by rfl, by rfl, by rfl⟩

/-- C3: an expired message (`now - createdAt > ttl`) never reaches a
subscriber callback: `publish` drops it (incrementing only the expired
counter and leaving the queue, subscribers and futures untouched), the
dispatch worker drops it at dequeue time with an empty callback-invocation
list (incrementing the expired counter), and expiry is stable as time
passes, so the two detection points cover every dequeue. -/
theorem expired_message_never_delivered (now : Int) (st : BusState) (m : Message)
    (h : m.isExpired now = true) :
    MessageBus.publish now st m =
      .ok { st with stats := { st.stats with messagesExpired := st.stats.messagesExpired + 1 } } ∧
    (∀ pri : Int, processOne now st (pri, m) =
      ({ st with stats := { st.stats with messagesExpired := st.stats.messagesExpired + 1 } }, [])) ∧
    (∀ later : Int, now ≤ later → m.isExpired later = true) := by
  refine ⟨?_, ?_, ?_⟩
  · simp [MessageBus.publish, h]
  · intro pri; simp [processOne, h]
  · intro later hle
    unfold Message.isExpired at h ⊢
    simp only [decide_eq_true_eq] at h ⊢
    omega

/-- Witness for the expiry theorem: the ttl-0 message created at time 0 is
expired at time 1, `publish` only bumps the expired counter, and processing
it invokes no callbacks. -/
theorem expired_message_never_delivered_witness :
    Message.isExpired 1 msgTtl0 = true ∧
    MessageBus.publish 1 busInit msgTtl0 = .ok ⟨[], [], [], ⟨0, 0, 1, 0⟩⟩ ∧
    processOne 1 busInit (-1, msgTtl0) = (⟨[], [], [], ⟨0, 0, 1, 0⟩⟩, []) := by
  have h := expired_message_never_delivered 1 busInit msgTtl0 rfl
  exact ⟨rfl, h.1, h.2.1 (-1)⟩

/-- C9: `cancel_workflow` returns `false` and changes nothing when the id is
absent from the active registry or the execution's status is not `running`;
on a running execution it returns `true` and the registered execution ends
up with status `cancelled` and the non-null end time `now`. -/
theorem cancel_workflow_spec (now : Int) (st : EngineState) (wid : String) :
    (st.activeWorkflows.find? (fun q => q.1 == wid) = Option.none →
      cancelWorkflow now st wid = (false, st)) ∧
    (∀ p, st.activeWorkflows.find? (fun q => q.1 == wid) = some p →
      p.2.status ≠ WorkflowStatus.running →
      cancelWorkflow now st wid = (false, st)) ∧
    (∀ p, st.activeWorkflows.find? (fun q => q.1 == wid) = some p →
      p.2.status = WorkflowStatus.running →
      (cancelWorkflow now st wid).1 = true ∧
      (cancelWorkflow now st wid).2.activeWorkflows.find? (fun q => q.1 == wid) =
        some (p.1, { p.2 with status := WorkflowStatus.cancelled, endTime := some now })) := by
  refine ⟨?_, ?_, ?_⟩
  · intro h
    unfold cancelWorkflow
    rw [h]
  · intro p hp hs
    unfold cancelWorkflow
    rw [hp]
    simp [hs]
  · intro p hp hs
    unfold cancelWorkflow
    rw [hp]
    simp only [hs, if_pos rfl]
    exact ⟨rfl, aux_find?_cancel_map st.activeWorkflows wid now p hp⟩

/-- Witness for the cancel theorem on the concrete registry `engineW0`: an
unknown id and the completed `wf2` give `false` with the state unchanged;
the running `wf1` is cancelled at time 9. -/
theorem cancel_workflow_spec_witness :
    cancelWorkflow 9 engineW0 "nope" = (false, engineW0) ∧
    cancelWorkflow 9 engineW0 "wf2" = (false, engineW0) ∧
    (cancelWorkflow 9 engineW0 "wf1").1 = true ∧
    (cancelWorkflow 9 engineW0 "wf1").2.activeWorkflows.find? (fun q => q.1 == "wf1") =
      some ("wf1", { execRunning with status := WorkflowStatus.cancelled, endTime := some 9 }) := by
  refine ⟨?_, ?_, ?_, ?_⟩
  · exact (cancel_workflow_spec 9 engineW0 "nope").1 rfl
  · exact (cancel_workflow_spec 9 engineW0 "wf2").2.1 ("wf2", execDone) rfl
      (by simp [execDone])
  · exact ((cancel_workflow_spec 9 engineW0 "wf1").2.2 ("wf1", execRunning) rfl rfl).1
  · exact ((cancel_workflow_spec 9 engineW0 "wf1").2.2 ("wf1", execRunning) rfl rfl).2

/-- C10: a Task-step parameter of the template form with the name absent
from the context resolves to the original template string itself, unchanged
(not `None` and not an error), whereas a `$`-path parameter whose first path
segment is absent resolves to `None`; the same holds through
`_resolve_parameters` on a one-parameter dict. -/
theorem resolve_parameters_missing_spec (ctx : Ctx) (s t : String)
    (h1 : strStarts s "\x7b\x7b" = true) (h2 : strEnds s "\x7d\x7d" = true)
    (h3 : ctxGet ctx (strTrim (strDropRight (strDrop s 2) 2)) = Option.none)
    (g1 : strStarts t "\x7b\x7b" = false) (g2 : strStarts t "$\x7b" = true)
    (g3 : strEnds t "\x7d" = true)
    (k : String) (rest : List String)
    (g4 : strSplitDot (strTrim (strDropRight (strDrop t 2) 1)) = k :: rest)
    (g5 : ctxGet ctx k = Option.none) :
    resolveValue ctx (.str s) = .str s ∧
    resolveValue ctx (.str t) = Value.none ∧
    (∀ key : String, resolveParameters [(key, Value.str s)] ctx = [(key, Value.str s)] ∧
      resolveParameters [(key, Value.str t)] ctx = [(key, Value.none)]) := by
  have hs : resolveValue ctx (.str s) = .str s := by
    simp [resolveValue, h1, h2, ctxGetD, h3]
  have ht : resolveValue ctx (.str t) = Value.none := by
    simp [resolveValue, g1, g2, g3, g4, getNestedValue, g5]
  refine ⟨hs, ht, ?_⟩
  intro key
  constructor
  · simp [resolveParameters, hs, dictInsert]
  · simp [resolveParameters, ht, dictInsert]

/-- Witness for the parameter-resolution theorem: `"\x7b\x7bname\x7d\x7d"` with
`name` unbound stays the literal template string, `"$\x7ba.b\x7d"` with `a`
unbound becomes `None`. -/
theorem resolve_parameters_missing_spec_witness :
    resolveValue [("other", Value.int 1)] (.str "\x7b\x7bname\x7d\x7d") = .str "\x7b\x7bname\x7d\x7d" ∧
    resolveValue [("other", Value.int 1)] (.str "$\x7ba.b\x7d") = Value.none := by
  have h := resolve_parameters_missing_spec [("other", Value.int 1)]
    "\x7b\x7bname\x7d\x7d" "$\x7ba.b\x7d" (by rfl) (by rfl) (by rfl) (by rfl) (by rfl)
    (by rfl) "a" ["b"] (by rfl) (by rfl)
  exact ⟨h.1, h.2.1⟩

/-- C6 (counter-evidence, evaluating the code at the failing input): when
the evaluation of a condition string itself raises — here `"\x7b\x7bx\x7d\x7d"` over a
context whose `x` is an object with a raising `__bool__` — the blanket
`except Exception: return False` inside `_evaluate_condition` swallows the
error and yields a falsy condition, so the conditional step returns the
skipped result with no dispatcher call, instead of wrapping and raising the
evaluation error to abort the workflow. -/
theorem condition_error_swallowed :
    evaluateConditionBody ctxC6 condC6 = .error "boom" ∧
    evaluateCondition ctxC6 condC6 = false ∧
    ∀ D : Dispatcher,
      executeConditionalStep D "s" (some "a") (some "act") [] (some condC6) ctxC6 =
        (.ok skippedResult, []) := by
  refine ⟨by rfl, by rfl, fun D => by rfl⟩

/-- C8: a conditional step whose condition evaluates falsy returns the
skipped result and makes no dispatcher call; when the condition evaluates
truthy the step makes exactly the task step's dispatcher calls and, whenever
that task step succeeds, returns exactly the task step's result. -/
theorem conditional_skip_spec (D : Dispatcher) (name : String)
    (agent : Option String) (action : Option String)
    (params : List (String × Value)) (cond : String) (ctx : Ctx) :
    (evaluateCondition ctx cond = false →
      executeConditionalStep D name agent action params (some cond) ctx =
        (.ok skippedResult, [])) ∧
    (evaluateCondition ctx cond = true →
      (executeConditionalStep D name agent action params (some cond) ctx).2 =
        (executeTaskStep D name agent action params ctx).2 ∧
      ∀ v, (executeTaskStep D name agent action params ctx).1 = .ok v →
        executeConditionalStep D name agent action params (some cond) ctx =
          executeTaskStep D name agent action params ctx) := by
  constructor
  · intro h
    simp [executeConditionalStep, h]
  · intro h
    rcases hts : executeTaskStep D name agent action params ctx with ⟨r, calls⟩
    constructor
    · cases r <;> simp [executeConditionalStep, h, hts]
    · intro v hv
      simp only at hv
      subst hv
      simp [executeConditionalStep, h, hts]

/-- Witness for the conditional theorem: the end-to-end scenario with
`condition="\x7b\x7bflag\x7d\x7d"` and `flag=false` skips without any dispatcher call,
and with `flag=true` the step behaves exactly as the task step. -/
theorem conditional_skip_spec_witness :
    evaluateCondition [("flag", Value.bool false)] "\x7b\x7bflag\x7d\x7d" = false ∧
    executeConditionalStep dispW "c" (some "good") (some "act") []
      (some "\x7b\x7bflag\x7d\x7d") [("flag", Value.bool false)] = (.ok skippedResult, []) ∧
    executeConditionalStep dispW "c" (some "good") (some "act") []
      (some "\x7b\x7bflag\x7d\x7d") [("flag", Value.bool true)] =
      executeTaskStep dispW "c" (some "good") (some "act") [] [("flag", Value.bool true)] := by
  refine ⟨by rfl, ?_, ?_⟩
  · exact (conditional_skip_spec dispW "c" (some "good") (some "act") []
      "\x7b\x7bflag\x7d\x7d" [("flag", Value.bool false)]).1 (by rfl)
  · exact ((conditional_skip_spec dispW "c" (some "good") (some "act") []
      "\x7b\x7bflag\x7d\x7d" [("flag", Value.bool true)]).2 (by rfl)).2 (.int 7) (by rfl)

/-- C7 (counterexample): with initiator `a` also listed in the participants,
the created session's participant list is `[a, a]` — the repeated name is
kept, so the claimed deduplication (each agent occurring exactly once) fails
at this input. -/
theorem start_collaboration_dup_counterexample :
    ((startCollaboration orchW0 "collab_1" "a" ["a"] "review" []).2.1.collaborations.find?
        (fun p => p.1 == "collab_1")).map (fun p => p.2.participants) =
      some ["a", "a"] ∧
    ¬ (["a", "a"] : List String).Nodup := by
  refine ⟨by rfl, by simp⟩

/-- C7 (amended): the created session's participant list is exactly the
initiator followed by the given participants, in order and with no
deduplication; the session is registered active with no results, both
collaboration counters are bumped, the agent registry is untouched, and
offers go to exactly the registered given participants, in order. -/
theorem start_collaboration_spec (st : OrchState) (cid initiator : String)
    (parts : List String) (ctype : String) (ctx : Ctx) :
    (startCollaboration st cid initiator parts ctype ctx).1 = cid ∧
    (startCollaboration st cid initiator parts ctype ctx).2.1.collaborations.find?
        (fun p => p.1 == cid) =
      some (cid, ⟨cid, initiator, initiator :: parts, ctype, ctx, "active", []⟩) ∧
    (startCollaboration st cid initiator parts ctype ctx).2.1.stats =
      { st.stats with activeCollaborations := st.stats.activeCollaborations + 1,
                      totalCollaborations := st.stats.totalCollaborations + 1 } ∧
    (startCollaboration st cid initiator parts ctype ctx).2.1.agents = st.agents ∧
    (startCollaboration st cid initiator parts ctype ctx).2.2 =
      parts.filter (fun p => (agentLookup st p).isSome) := by
  refine ⟨rfl, ?_, rfl, rfl, rfl⟩
  exact aux_assocSet_find? st.collaborations cid _

theorem aux_runBranches_eq_map (D : Dispatcher) (nested : List WStep) (ctx : Ctx) :
    runBranches D nested ctx = nested.map (fun s => (s.name, executeStep D s ctx)) := by
  induction nested with
  | nil => rfl
  | cons s rest ih => simp only [runBranches, ih, List.map_cons]

theorem aux_dictInsert_fresh (d : List (String × Value)) (k : String) (v : Value)
    (h : ∀ p ∈ d, p.1 ≠ k) : dictInsert d k v = d ++ [(k, v)] := by
  induction d with
  | nil => rfl
  | cons a rest ih =>
    obtain ⟨k1, v1⟩ := a
    have hk1 : k1 ≠ k := by
      have := h (k1, v1) (List.mem_cons_self _ _)
      simpa using this
    simp only [dictInsert, if_neg hk1, List.cons_append]
    rw [ih]
    intro p hp
    exact h p (List.mem_cons_of_mem _ hp)

theorem aux_foldl_dictInsert
    (l : List (String × (Except String Value × List TaskCall)))
    (acc : List (String × Value))
    (hfresh : ∀ p ∈ l, ∀ q ∈ acc, q.1 ≠ p.1)
    (hnd : (l.map Prod.fst).Nodup) :
    l.foldl (fun a p => dictInsert a p.1 (branchSlot p.2.1)) acc =
      acc ++ l.map (fun p => (p.1, branchSlot p.2.1)) := by
  induction l generalizing acc with
  | nil => simp
  | cons p rest ih =>
    simp only [List.foldl_cons, List.map_cons]
    rw [aux_dictInsert_fresh acc p.1 (branchSlot p.2.1)
      (fun q hq => hfresh p (List.mem_cons_self _ _) q hq)]
    rw [ih (acc ++ [(p.1, branchSlot p.2.1)])]
    · simp
    · intro p1 hp1 q hq
      rcases List.mem_append.mp hq with hq1 | hq2
      · exact hfresh p1 (List.mem_cons_of_mem _ hp1) q hq1
      · have hqp : q = (p.1, branchSlot p.2.1) := by simpa using hq2
        subst hqp
        simp only [List.map_cons, List.nodup_cons] at hnd
        intro hcontra
        exact hnd.1 (hcontra ▸ List.mem_map_of_mem Prod.fst hp1)
    · simp only [List.map_cons, List.nodup_cons] at hnd
      exact hnd.2

theorem aux_collectBranches_eq_map
    (l : List (String × (Except String Value × List TaskCall)))
    (hnd : (l.map Prod.fst).Nodup) :
    collectBranches l = l.map (fun p => (p.1, branchSlot p.2.1)) := by
  unfold collectBranches
  simpa using aux_foldl_dictInsert l [] (by simp) hnd

/-- C5: a parallel step whose nested steps carry distinct names (the data
model requires step names unique within a definition) never raises: it
returns a dict with exactly one entry per nested step, in submission order,
each slot holding that branch's own standalone outcome — in particular a
branch that throws contributes an error dict in its own slot while every
sibling's slot is exactly what executing that sibling alone yields. -/
theorem parallel_containment_spec (D : Dispatcher) (name : String)
    (agent : Option String) (action : Option String)
    (params : List (String × Value)) (deps : List String) (cond : Option String)
    (lc : Option (List (String × Value))) (nested : List WStep) (ctx : Ctx)
    (k : Nat) (e : String)
    (hne : nested ≠ [])
    (hnd : (nested.map WStep.name).Nodup)
    (hk : k < nested.length)
    (herr : (executeStep D (nested.get ⟨k, hk⟩) ctx).1 = .error e) :
    (executeStep D (.mk name .parallel agent action params deps cond nested lc) ctx).1 =
      .ok (.dict (nested.map (fun s => (s.name, branchSlot (executeStep D s ctx).1)))) ∧
    (nested.map (fun s => (s.name, branchSlot (executeStep D s ctx).1))).length =
      nested.length ∧
    (nested.map (fun s => (s.name, branchSlot (executeStep D s ctx).1))).get
        ⟨k, by simpa using hk⟩ =
      ((nested.get ⟨k, hk⟩).name, Value.dict [("error", Value.str e)]) := by
  refine ⟨?_, by simp, ?_⟩
  · have hempty : nested.isEmpty = false := by
      cases nested with
      | nil => exact absurd rfl hne
      | cons a l => rfl
    have hkeys : ((nested.map (fun s => (s.name, executeStep D s ctx))).map Prod.fst).Nodup := by
      simpa [Function.comp] using hnd
    simp only [executeStep, hempty, Bool.false_eq_true, if_false,
      aux_runBranches_eq_map, aux_collectBranches_eq_map _ hkeys, List.map_map]
    rfl
  · rw [List.get_map]
    rw [herr]
    rfl

/-- Witness for the parallel-containment theorem: two branches where the
second always throws; the parallel step succeeds with a two-slot dict whose
second slot captures the error. -/
theorem parallel_containment_spec_witness :
    (executeStep dispW parW []).1 =
      .ok (.dict [("s1", Value.int 7), ("s2", Value.dict [("error", Value.str "boom")])]) ∧
    ([stepW1, stepW2].map
      (fun s => (s.name, branchSlot (executeStep dispW s []).1))).length = 2 := by
  have h := parallel_containment_spec dispW "p" Option.none Option.none [] [] Option.none
    Option.none [stepW1, stepW2] [] 1 "boom" (by simp)
    (by simp [stepW1, stepW2, WStep.name]) (by simp) (by rfl)
  refine ⟨?_, by rfl⟩
  exact h.1.trans (by rfl)

/-- C4: `execute_task` raises the not-registered error for an unknown agent
and the not-available error for a non-idle one, leaving the state unchanged;
for an idle agent it first flips the status to busy, then on communicator
success returns the result with the agent back to idle and the total and
success counters bumped, and on a communicator exception re-raises it with
the agent in error status and the total and failure counters bumped. -/
theorem execute_task_spec (st : OrchState) (agentName : String)
    (comm : Except String Value) :
    (agentLookup st agentName = Option.none →
      executeTask st agentName comm =
        (.error ("Agent \x27" ++ agentName ++ "\x27 not registered"), st)) ∧
    (∀ info, agentLookup st agentName = some info → info.status ≠ .idle →
      executeTask st agentName comm =
        (.error ("Agent \x27" ++ agentName ++ "\x27 is not available"), st)) ∧
    (∀ info, agentLookup st agentName = some info → info.status = .idle →
      executeTaskBegin st agentName = .ok (setAgentStatus st agentName .busy) ∧
      agentLookup (setAgentStatus st agentName .busy) agentName =
        some { info with status := .busy } ∧
      (∀ v, comm = .ok v →
        (executeTask st agentName comm).1 = .ok v ∧
        agentLookup (executeTask st agentName comm).2 agentName =
          some { info with status := .idle } ∧
        (executeTask st agentName comm).2.stats =
          { st.stats with totalTasks := st.stats.totalTasks + 1,
                          successfulTasks := st.stats.successfulTasks + 1 }) ∧
      (∀ e, comm = .error e →
        (executeTask st agentName comm).1 = .error e ∧
        agentLookup (executeTask st agentName comm).2 agentName =
          some { info with status := .error } ∧
        (executeTask st agentName comm).2.stats =
          { st.stats with totalTasks := st.stats.totalTasks + 1,
                          failedTasks := st.stats.failedTasks + 1 })) := by
  refine ⟨?_, ?_, ?_⟩
  · intro h
    have hbegin : executeTaskBegin st agentName =
        .error ("Agent \x27" ++ agentName ++ "\x27 not registered") := by
      unfold executeTaskBegin
      rw [h]
    unfold executeTask
    rw [hbegin]
  · intro info h hs
    have hbegin : executeTaskBegin st agentName =
        .error ("Agent \x27" ++ agentName ++ "\x27 is not available") := by
      unfold executeTaskBegin
      rw [h]
      simp [hs]
    unfold executeTask
    rw [hbegin]
  · intro info h hs
    have hbegin : executeTaskBegin st agentName =
        .ok (setAgentStatus st agentName .busy) := by
      unfold executeTaskBegin
      rw [h]
      simp [hs]
    refine ⟨hbegin, aux_agentLookup_set st agentName .busy info h, ?_, ?_⟩
    · intro v hv
      subst hv
      have hrun : executeTask st agentName (.ok v) =
          executeTaskFinish (setAgentStatus st agentName .busy) agentName (.ok v) := by
        unfold executeTask
        rw [hbegin]
      refine ⟨by rw [hrun]; rfl, ?_, by rw [hrun]; rfl⟩
      rw [hrun]
      show agentLookup
        (setAgentStatus (setAgentStatus st agentName .busy) agentName .idle) agentName = _
      exact aux_agentLookup_set _ agentName .idle { info with status := .busy }
        (aux_agentLookup_set st agentName .busy info h)
    · intro e he
      subst he
      have hrun : executeTask st agentName (.error e) =
          executeTaskFinish (setAgentStatus st agentName .busy) agentName (.error e) := by
        unfold executeTask
        rw [hbegin]
      refine ⟨by rw [hrun]; rfl, ?_, by rw [hrun]; rfl⟩
      rw [hrun]
      show agentLookup
        (setAgentStatus (setAgentStatus st agentName .busy) agentName .error) agentName = _
      exact aux_agentLookup_set _ agentName .error { info with status := .busy }
        (aux_agentLookup_set st agentName .busy info h)

/-- Witness for the task-dispatch theorem, scenario A style: an unknown
agent and a busy agent fail with the state unchanged; on the idle `writer`,
success returns the result with `writer` idle again and `totalTasks =
successfulTasks = 1`, while a failure re-raises with `writer` in error
status and `failedTasks = 1`. -/
theorem execute_task_spec_witness :
    executeTask orchW0 "ghost" (.ok (.int 7)) =
      (.error "Agent \x27ghost\x27 not registered", orchW0) ∧
    executeTask orchBusy "writer" (.ok (.int 7)) =
      (.error "Agent \x27writer\x27 is not available", orchBusy) ∧
    (executeTask orchW0 "writer" (.ok (.int 7))).1 = .ok (.int 7) ∧
    agentLookup (executeTask orchW0 "writer" (.ok (.int 7))).2 "writer" =
      some ⟨"writer", "author", ["write"], .idle⟩ ∧
    (executeTask orchW0 "writer" (.ok (.int 7))).2.stats = ⟨1, 1, 0, 0, 0⟩ ∧
    (executeTask orchW0 "writer" (.error "boom")).1 = .error "boom" ∧
    agentLookup (executeTask orchW0 "writer" (.error "boom")).2 "writer" =
      some ⟨"writer", "author", ["write"], .error⟩ ∧
    (executeTask orchW0 "writer" (.error "boom")).2.stats = ⟨1, 0, 1, 0, 0⟩ := by
  have hok := (execute_task_spec orchW0 "writer" (.ok (.int 7))).2.2
    ⟨"writer", "author", ["write"], .idle⟩ (by rfl) (by rfl)
  have herr := (execute_task_spec orchW0 "writer" (.error "boom")).2.2
    ⟨"writer", "author", ["write"], .idle⟩ (by rfl) (by rfl)
  have h1 := (execute_task_spec orchW0 "ghost" (.ok (.int 7))).1 (by rfl)
  have h2 := (execute_task_spec orchBusy "writer" (.ok (.int 7))).2.1
    ⟨"writer", "author", ["write"], .busy⟩ (by rfl) (by simp)
  have hok2 := hok.2.2.1 (.int 7) rfl
  have herr2 := herr.2.2.2 "boom" rfl
  exact ⟨h1, h2, hok2.1, hok2.2.1, hok2.2.2, herr2.1, herr2.2.1, herr2.2.2⟩

theorem aux_executeStep_body_hit (hash : Ctx → String) (rng : Int → Int) (now : Int)
    (jt : String) (st : SafetyState) (stepId : String) (inputs : Ctx)
    (ex : StepExecution)
    (hhit : WorkflowSafety.findStep st (hash inputs) = some ex) :
    WorkflowSafety.executeStepBody hash rng now jt st stepId inputs Option.none =
      ⟨true, ex.outputs, st, false⟩ := by
  simp only [WorkflowSafety.executeStepBody, hhit]

/-- Supporting lemma: the *undecorated body* of `execute_step` does
implement the documented idempotency protocol — run twice with the same
inputs and no explicit dedupe key from a state where the content-addressed
key is not yet journaled or persisted, it yields `(False, out)` and then
`(True, out)` with identical outputs; the second run executes nothing and
leaves the state (journal, outbox, durable memory) untouched; and the
journal after both runs holds exactly one record for that dedupe key.
Proved for every content-hash function, pseudo-random generator, clock
reading and job token.  (The decorated callable the source exposes never
hands this pair to the caller — see the C2 theorem.) -/
theorem execute_step_body_idempotent (hash : Ctx → String) (rng : Int → Int)
    (now1 now2 : Int) (jt1 jt2 : String) (st : SafetyState)
    (stepId : String) (inputs : Ctx)
    (hmiss : WorkflowSafety.findStep st (hash inputs) = Option.none) :
    (WorkflowSafety.executeStepBody hash rng now1 jt1 st stepId inputs Option.none).isReplay
      = false ∧
    (WorkflowSafety.executeStepBody hash rng now1 jt1 st stepId inputs Option.none).executed
      = true ∧
    (WorkflowSafety.executeStepBody hash rng now2 jt2
        (WorkflowSafety.executeStepBody hash rng now1 jt1 st stepId inputs Option.none).state
        stepId inputs Option.none).isReplay = true ∧
    (WorkflowSafety.executeStepBody hash rng now2 jt2
        (WorkflowSafety.executeStepBody hash rng now1 jt1 st stepId inputs Option.none).state
        stepId inputs Option.none).outputs =
      (WorkflowSafety.executeStepBody hash rng now1 jt1 st stepId inputs Option.none).outputs ∧
    (WorkflowSafety.executeStepBody hash rng now2 jt2
        (WorkflowSafety.executeStepBody hash rng now1 jt1 st stepId inputs Option.none).state
        stepId inputs Option.none).executed = false ∧
    (WorkflowSafety.executeStepBody hash rng now2 jt2
        (WorkflowSafety.executeStepBody hash rng now1 jt1 st stepId inputs Option.none).state
        stepId inputs Option.none).state =
      (WorkflowSafety.executeStepBody hash rng now1 jt1 st stepId inputs Option.none).state ∧
    ((WorkflowSafety.executeStepBody hash rng now1 jt1 st stepId inputs Option.none).state.journal.filter
        (fun ex => ex.dedupeKey == hash inputs)).length = 1 := by
  have hjournal : st.journal.find? (fun ex => ex.dedupeKey == hash inputs) = Option.none := by
    unfold WorkflowSafety.findStep at hmiss
    cases hfind : st.journal.find? (fun ex => ex.dedupeKey == hash inputs) with
    | none => rfl
    | some ex =>
      rw [hfind] at hmiss
      simp at hmiss
  have hfilter : st.journal.filter (fun ex => ex.dedupeKey == hash inputs) = [] := by
    rw [List.filter_eq_nil_iff]
    intro a ha
    have := List.find?_eq_none.mp hjournal a ha
    simpa using this
  have hj1 : (WorkflowSafety.executeStepBody hash rng now1 jt1 st stepId inputs Option.none).state.journal
      = st.journal ++
        [⟨stepId, hash inputs, inputs,
          (WorkflowSafety.executeStepBody hash rng now1 jt1 st stepId inputs Option.none).outputs,
          now1, "success", jt1⟩] := by
    simp only [WorkflowSafety.executeStepBody, hmiss]
  have hfind2 : WorkflowSafety.findStep
      (WorkflowSafety.executeStepBody hash rng now1 jt1 st stepId inputs Option.none).state
      (hash inputs) =
      some ⟨stepId, hash inputs, inputs,
        (WorkflowSafety.executeStepBody hash rng now1 jt1 st stepId inputs Option.none).outputs,
        now1, "success", jt1⟩ := by
    unfold WorkflowSafety.findStep
    rw [hj1, List.find?_append, hjournal]
    simp
  have h2 := aux_executeStep_body_hit hash rng now2 jt2
    (WorkflowSafety.executeStepBody hash rng now1 jt1 st stepId inputs Option.none).state
    stepId inputs
    ⟨stepId, hash inputs, inputs,
      (WorkflowSafety.executeStepBody hash rng now1 jt1 st stepId inputs Option.none).outputs,
      now1, "success", jt1⟩ hfind2
  refine ⟨?_, ?_, ?_, ?_, ?_, ?_, ?_⟩
  · simp only [WorkflowSafety.executeStepBody, hmiss]
  · simp only [WorkflowSafety.executeStepBody, hmiss]
  · rw [h2]
  · rw [h2]
  · rw [h2]
  · rw [h2]
  · rw [hj1, List.filter_append, hfilter]
    simp

/-- The body-level idempotence lemma instantiated at a concrete hash,
generator and fresh safety state: the first run executes, the second
replays the same outputs with the state unchanged, and the journal holds
one record. -/
theorem execute_step_body_idempotent_witness :
    WorkflowSafety.findStep safetyW0 (hashW []) = Option.none ∧
    (WorkflowSafety.executeStepBody hashW rngW 1 "jt1" safetyW0 "s" [] Option.none).isReplay
      = false ∧
    (WorkflowSafety.executeStepBody hashW rngW 2 "jt2"
        (WorkflowSafety.executeStepBody hashW rngW 1 "jt1" safetyW0 "s" [] Option.none).state
        "s" [] Option.none).isReplay = true ∧
    (WorkflowSafety.executeStepBody hashW rngW 2 "jt2"
        (WorkflowSafety.executeStepBody hashW rngW 1 "jt1" safetyW0 "s" [] Option.none).state
        "s" [] Option.none).outputs =
      (WorkflowSafety.executeStepBody hashW rngW 1 "jt1" safetyW0 "s" [] Option.none).outputs ∧
    ((WorkflowSafety.executeStepBody hashW rngW 1 "jt1" safetyW0 "s" [] Option.none).state.journal.filter
        (fun ex => ex.dedupeKey == hashW [])).length = 1 := by
  have h := execute_step_body_idempotent hashW rngW 1 2 "jt1" "jt2" safetyW0 "s" [] (by rfl)
  exact ⟨by rfl, h.1, h.2.2.1, h.2.2.2.1, h.2.2.2.2.2.2⟩

/-- C2 (counter-evidence, evaluating the code at the failing input): the
`@contextmanager` decorator on `execute_step` wraps a body that returns
instead of yielding, so no call — first or repeated — ever returns the
claimed `(is_replay, outputs)` pair: the call eagerly runs the body and
hands back a `_GeneratorContextManager` holding the pair in its `gen`
field, and the designed `with` usage raises `TypeError` at `__enter__`
(first conjunct, for every call).  The undecorated body does implement the
idempotency protocol the claim (and the function's own docstring,
`Returns (is_replay, outputs)`) describes, exhibited at the concrete
input: the first run yields `(False, out)`, executes, and journals one
record for the content-addressed key; the second yields `(True, out)` with
identical outputs, executes nothing, and leaves the state unchanged.  The
decorator is the slip. -/
theorem execute_step_context_manager_type_error :
    (∀ (hash : Ctx → String) (rng : Int → Int) (now : Int) (jt : String)
       (st : SafetyState) (stepId : String) (inputs : Ctx) (dk : Option String),
      ((WorkflowSafety.executeStep hash rng now jt st stepId inputs dk).1).enter =
        .error "TypeError: \x27tuple\x27 object is not an iterator") ∧
    (WorkflowSafety.executeStep hashW rngW 1 "jt1" safetyW0 "s" [] Option.none).1.gen =
      (false,
       (WorkflowSafety.executeStepBody hashW rngW 1 "jt1" safetyW0 "s" [] Option.none).outputs) ∧
    (WorkflowSafety.executeStepBody hashW rngW 1 "jt1" safetyW0 "s" [] Option.none).isReplay
      = false ∧
    (WorkflowSafety.executeStepBody hashW rngW 1 "jt1" safetyW0 "s" [] Option.none).executed
      = true ∧
    (WorkflowSafety.executeStepBody hashW rngW 2 "jt2"
        (WorkflowSafety.executeStepBody hashW rngW 1 "jt1" safetyW0 "s" [] Option.none).state
        "s" [] Option.none).isReplay = true ∧
    (WorkflowSafety.executeStepBody hashW rngW 2 "jt2"
        (WorkflowSafety.executeStepBody hashW rngW 1 "jt1" safetyW0 "s" [] Option.none).state
        "s" [] Option.none).outputs =
      (WorkflowSafety.executeStepBody hashW rngW 1 "jt1" safetyW0 "s" [] Option.none).outputs ∧
    (WorkflowSafety.executeStepBody hashW rngW 2 "jt2"
        (WorkflowSafety.executeStepBody hashW rngW 1 "jt1" safetyW0 "s" [] Option.none).state
        "s" [] Option.none).executed = false ∧
    (WorkflowSafety.executeStepBody hashW rngW 2 "jt2"
        (WorkflowSafety.executeStepBody hashW rngW 1 "jt1" safetyW0 "s" [] Option.none).state
        "s" [] Option.none).state =
      (WorkflowSafety.executeStepBody hashW rngW 1 "jt1" safetyW0 "s" [] Option.none).state ∧
    ((WorkflowSafety.executeStepBody hashW rngW 1 "jt1" safetyW0 "s" []
        Option.none).state.journal.filter
        (fun ex => ex.dedupeKey == hashW [])).length = 1 := by
  refine ⟨fun hash rng now jt st stepId inputs dk => rfl,
    by rfl, by rfl, by rfl, by rfl, by rfl, by rfl, by rfl, by rfl⟩

end AiSandbox
